import Mathlib

/-!
Verification development for the file-operations CLI tool (src/file.py).

The Python source is shallowly embedded: every operation becomes a pure Lean
function over an explicit model of the relevant filesystem state.  Filesystem
facts that the Python code queries (existence, type, permissions, directory
listings, decoded file contents, zip entry integrity) are supplied as fields of
small environment structures; every mutation the code would perform (creating a
directory, writing a file, producing an archive) is reflected in the returned
result structure.  Strings are modelled as Lean strings; `str.lower()` is
modelled by ASCII lower-casing (the paths and extensions in question are ASCII),
`str.strip()` by stripping the ASCII whitespace characters Python strips, and
`str(Path(p))` path normalisation is modelled as the identity (no path in any
claim contains redundant separators).
-/

namespace FileCli

/-- ASCII whitespace characters stripped by Python `str.strip()`.
(Unicode space characters, which Python also strips, are outside the model:
every path in the claims is ASCII.) -/
def pyIsSpace (c : Char) : Bool :=
  c = ' ' || c = '\t' || c = '\n' || c = '\r' || c = '\x0b' || c = '\x0c'

/-- Model of Python `str.strip()`: drop leading and trailing whitespace. -/
def pyStrip (s : String) : String :=
  ⟨((s.data.dropWhile pyIsSpace).reverse.dropWhile pyIsSpace).reverse⟩

/-- Model of Python `str.lower()` for the ASCII strings of this program:
lower-case every character.  (Defined over the character list so that it
evaluates by kernel reduction; `Char.toLower` handles exactly ASCII.) -/
def strLower (s : String) : String :=
  ⟨s.data.map Char.toLower⟩

/-- Character-list test that the first list is an initial segment of the
second. -/
def listIsPrefixOf : List Char → List Char → Bool
  | [], _ => true
  | _ :: _, [] => false
  | a :: as, b :: bs => a == b && listIsPrefixOf as bs

/-- Model of Python `str.endswith(suffixString)`. -/
def strEndsWith (s suffixStr : String) : Bool :=
  listIsPrefixOf suffixStr.data.reverse s.data.reverse

/-- Emptiness test of a string (Python falsiness of a string), defined over
the character list so that it evaluates by kernel reduction. -/
def strIsEmpty (s : String) : Bool :=
  s.data.isEmpty

/-- A string different from the empty string is not empty. -/
lemma strIsEmpty_false_of_ne (s : String) (h : s ≠ "") : strIsEmpty s = false := by
  cases s with
  | mk data =>
    cases data with
    | nil => exact absurd rfl h
    | cons c cs => rfl

/-- The illegal-character list of `validate_path`
(`invalid_chars = ['<', '>', '|', '\0', '\n', '\r']` in the source). -/
def invalidChars : List Char := ['<', '>', '|', '\x00', '\n', '\r']

/-- Whether the string contains one of the illegal characters
(`any(char in str(path_obj) for char in invalid_chars)` in the source). -/
def containsIllegal (s : String) : Bool :=
  s.data.any (fun c => invalidChars.contains c)

/-- The `path_type` argument of `validate_path`: one of the strings
`'file'`, `'dir'`, `'auto'` in the source. -/
inductive PathType where
  | file
  | dir
  | auto
deriving DecidableEq

/-- Filesystem facts about one path, as queried by `validate_path`:
whether the path exists, whether the existing entry is a directory
(`is_dir()`; an existing non-directory is a regular file in this model),
and whether the parent directory exists. -/
structure PathInfo where
  present : Bool
  isDir : Bool
  parentPresent : Bool
deriving DecidableEq

/-- Embedding of `validate_path(path, should_exist, path_type)`
(src/file.py lines 96-144).  The filesystem is read through `info` and is
never written: the function returns only the `(bool, message)` pair the
Python function returns, so the check is read-only by construction. -/
def validate_path (path : String) (shouldExist : Bool) (ptype : PathType)
    (info : PathInfo) : Bool × Option String :=
  if strIsEmpty path then
    (false, some "Invalid path format - path must be a non-empty string")
  else
    let p := pyStrip path
    if strIsEmpty p then
      (false, some "Invalid path - cannot be empty or whitespace only")
    else if containsIllegal p then
      (false, some "Invalid path - contains illegal characters")
    else if shouldExist then
      if !info.present then
        (false, some ("Path does not exist: " ++ p))
      else if ptype = PathType.file ∧ info.isDir then
        (false, some ("Expected file but found directory: " ++ p))
      else if ptype = PathType.dir ∧ !info.isDir then
        (false, some ("Expected directory but found file: " ++ p))
      else
        (true, none)
    else
      if !info.parentPresent then
        (false, some "Parent directory does not exist")
      else if info.present ∧ ptype = PathType.file then
        (true, some "File already exists (will be overwritten)")
      else
        (true, none)

/-- When `validate_path` reports failure it always carries a human-readable
message. -/
lemma validate_path_false_msg (path : String) (shouldExist : Bool)
    (ptype : PathType) (info : PathInfo)
    (h : (validate_path path shouldExist ptype info).1 = false) :
    ∃ m, (validate_path path shouldExist ptype info).2 = some m := by
  revert h
  simp only [validate_path]
  repeat' split
  all_goals simp

/-- The classification table `EXTENSION_FOLDERS` (src/file.py lines 64-78),
mapping lower-cased extension (with leading dot) to category folder name. -/
def EXTENSION_FOLDERS : List (String × String) :=
  [(".jpg", "Images"), (".jpeg", "Images"), (".png", "Images"), (".gif", "Images"),
   (".svg", "Images"), (".webp", "Images"), (".heic", "Images"),
   (".mp4", "Videos"), (".avi", "Videos"), (".mkv", "Videos"), (".mov", "Videos"),
   (".wmv", "Videos"),
   (".pdf", "Documents"), (".doc", "Documents"), (".docx", "Documents"),
   (".xls", "Documents"), (".xlsx", "Documents"), (".csv", "Documents"),
   (".ppt", "Documents"), (".pptx", "Documents"), (".txt", "Documents"),
   (".mp3", "Music"), (".wav", "Music"), (".aac", "Music"), (".flac", "Music"),
   (".py", "Programs"), (".ipynb", "Programs"), (".c", "Programs"),
   (".cpp", "Programs"), (".java", "Programs"), (".js", "Programs"),
   (".ts", "Programs"), (".sh", "Programs"),
   (".exe", "Applications"), (".msi", "Applications"), (".apk", "Applications"),
   (".dmg", "Applications"), (".deb", "Applications"), (".rpm", "Applications"),
   (".zip", "Compressed"), (".rar", "Compressed"), (".7z", "Compressed"),
   (".tar", "Compressed"), (".gz", "Compressed")]

/-- Model of `EXTENSION_FOLDERS.get(ext, "Misc")`: dictionary lookup with the
default category `"Misc"`.  The argument is expected already lower-cased, as at
the call site in `organize_files`. -/
def lookupCategory (ext : String) : String :=
  (EXTENSION_FOLDERS.lookup ext).getD "Misc"

/-- Index of the last occurrence of a dot in a character list. -/
def lastDotIdx (l : List Char) : Option Nat :=
  ((l.enum.filter (fun p => p.2 == '.')).map (fun p => p.1)).getLast?

/-- Model of `pathlib.PurePath.suffix` applied to a base file name
(`file.suffix` in `organize_files`): the substring from the last dot,
provided that dot is neither the first nor the last character of the name;
otherwise the empty string.  This mirrors the CPython implementation
(`i = name.rfind('.'); return name[i:] if 0 < i < len(name) - 1 else ''`). -/
def pySuffix (name : String) : String :=
  match lastDotIdx name.data with
  | none => ""
  | some i => if 0 < i ∧ i < name.length - 1 then name.drop i else ""

/-! ## write_file (src/file.py lines 210-252) -/

/-- Environment for one `write_file` call: the `PathInfo` of the target path,
whether the parent directory is writable, and the current content of the file
at the target path (`none` when absent).  `info.present` and `info.isDir`
describe the same path as `content`: a present non-directory path holds
`content = some c`. -/
structure WriteEnv where
  info : PathInfo
  parentWritable : Bool
  content : Option String

/-- Result of a `write_file` call: the returned boolean, the content at the
target path afterwards, whether the parent directory chain was created by the
call (`mkdir(parents=True)` on the non-append path), and the messages printed. -/
structure WriteResult where
  ok : Bool
  content : Option String
  parentCreated : Bool
  msgs : List String
deriving DecidableEq

/-- Embedding of `write_file(path, text, append)` (src/file.py lines 210-252).
It mirrors the source exactly: the `validate_path` result is enforced only when
`append` is true; for a plain write the function proceeds regardless, creates
the missing parent directory, checks `os.access` on the parent, and writes
`text + "\x0an"` (mode `"w"` replaces, mode `"a"` appends). -/
def write_file (path text : String) (append : Bool) (env : WriteEnv) : WriteResult :=
  let v := validate_path path append PathType.file env.info
  if !v.1 && append then
    { ok := false, content := env.content, parentCreated := false
      msgs := [v.2.getD ""] }
  else
    let warn : List String :=
      if strIsEmpty text then ["Warning: text input appears invalid, writing empty content"]
      else []
    let parentCreated := !append && !env.info.parentPresent
    let parentNow := env.info.parentPresent || parentCreated
    let parentWritableNow := if parentCreated then true else env.parentWritable
    if !(parentNow && parentWritableNow) then
      { ok := false, content := env.content, parentCreated := parentCreated
        msgs := warn ++ ["Permission denied - cannot write to this directory"] }
    else if env.info.present && env.info.isDir then
      { ok := false, content := env.content, parentCreated := parentCreated
        msgs := warn ++ ["Path is a directory, not a file: " ++ path] }
    else
      { ok := true
        content :=
          if append then some ((env.content.getD "") ++ text ++ "\n")
          else some (text ++ "\n")
        parentCreated := parentCreated
        msgs := warn ++ [(if append then "Appended to: " else "Written to: ") ++ path] }

/-! ## search_files (src/file.py lines 429-488) -/

/-- One regular file met during the walk: its base name, whether
`os.access(file_path, os.R_OK)` holds, and its text content as decoded by
`open(..., errors="ignore")` (undecodable bytes are dropped by Python, so
decoding never raises; the decoded text is what the model stores). -/
structure SFile where
  name : String
  readable : Bool
  content : String
deriving DecidableEq

/-- One directory met during the walk of `os.walk(directory)`: whether
`os.access(root, os.R_OK)` holds and the regular files directly inside it. -/
structure SDir where
  readable : Bool
  files : List SFile
deriving DecidableEq

/-- Model of the Python substring test `needle in hay`. -/
def substrOf (needle hay : String) : Bool :=
  (List.range (hay.data.length + 1)).any
    (fun i => listIsPrefixOf needle.data (hay.data.drop i))

/-- Python truthiness of an optional string argument: `None` and the empty
string are falsy (`if name and ...` in the source). -/
def truthy : Option String → Bool
  | none => false
  | some s => !(strIsEmpty s)

/-- The per-file filter of `search_files` (src/file.py lines 451-473),
written as the source's chain of `continue` conditions: name substring check,
extension `endswith` check, then the keyword content check guarded by
readability. -/
def matchFile (nm ext kw : Option String) (f : SFile) : Bool :=
  if truthy nm && !(substrOf (strLower (nm.getD "")) (strLower f.name)) then false
  else if truthy ext && !(strEndsWith (strLower f.name) (strLower (ext.getD ""))) then false
  else if truthy kw then
    if !f.readable then false
    else substrOf (strLower (kw.getD "")) (strLower f.content)
  else true

/-- Embedding of the walk of `search_files`: unreadable directories are
skipped with a warning, matching files of readable directories are reported
in walk order. -/
def search_files (nm ext kw : Option String) (dirs : List SDir) : List String :=
  dirs.foldr
    (fun d acc =>
      (if d.readable then (d.files.filter (matchFile nm ext kw)).map (fun f => f.name)
       else []) ++ acc) []

/-- The match condition as the specification words it: the name pattern is
absent or case-insensitively a substring of the filename, and the extension is
absent or the filename case-insensitively ends with it, and the keyword is
absent or the file is readable and its decoded content case-insensitively
contains it. -/
def specMatch (nm ext kw : Option String) (f : SFile) : Bool :=
  (match nm with
   | none => true
   | some n => substrOf (strLower n) (strLower f.name))
  && (match ext with
      | none => true
      | some e => strEndsWith (strLower f.name) (strLower e))
  && (match kw with
      | none => true
      | some k => f.readable && substrOf (strLower k) (strLower f.content))

/-- The walk result described by the specification predicate. -/
def searchSpec (nm ext kw : Option String) (dirs : List SDir) : List String :=
  dirs.foldr
    (fun d acc =>
      (if d.readable then (d.files.filter (specMatch nm ext kw)).map (fun f => f.name)
       else []) ++ acc) []

/-! ## compress_files (src/file.py lines 490-566) -/

/-- One file found by `os.walk(src)` during compression: its path relative to
`src`, whether its directory passed the `os.access(root, os.R_OK)` check, and
whether the file itself passed `os.access(fpath, os.R_OK)`. -/
structure WalkFile where
  relpath : String
  dirReadable : Bool
  readable : Bool
deriving DecidableEq

/-- Environment of one `compress_files` call. -/
structure CompressEnv where
  srcInfo : PathInfo
  srcReadable : Bool
  srcIsDir : Bool
  walk : List WalkFile
  dstParentPresent : Bool
  dstParentMkdirDenied : Bool
  dstParentWritable : Bool
  dstPresent : Bool

/-- Result of one `compress_files` call: the returned boolean, the entry list
of the archive file now sitting at the destination path (`none` when no
archive file was written at all — note that opening `zipfile.ZipFile(dst,"w")`
already creates the file, so an early `return False` from inside the `with`
block leaves an archive on disk), and the messages printed. -/
structure CompressResult where
  ok : Bool
  archive : Option (List String)
  msgs : List String
deriving DecidableEq

/-- Python `os.path.basename`: the component after the last slash. -/
def baseName (p : String) : String :=
  ⟨p.data.foldl (fun acc c => if c = '/' then [] else acc ++ [c]) []⟩

/-- The message printed when a directory source yields no archivable file. -/
def emptySourceMsg : String :=
  "Source directory is empty or all files are inaccessible"

/-- Embedding of `compress_files(src, dst)` (src/file.py lines 490-566).
The destination is stripped and coerced to end in `.zip`; the zip file is
opened for writing (creating it on disk) before any entry is examined, so a
directory source with zero archivable files returns failure while an empty
archive remains at the destination. -/
def compress_files (src dst : String) (env : CompressEnv) : CompressResult :=
  let v := validate_path src true PathType.auto env.srcInfo
  if !v.1 then
    { ok := false, archive := none, msgs := [v.2.getD ""] }
  else if strIsEmpty dst then
    { ok := false, archive := none, msgs := ["Destination path cannot be empty"] }
  else
    if !env.srcReadable then
      { ok := false, archive := none
        msgs := ["Permission denied - cannot read source"] }
    else if !env.dstParentPresent && env.dstParentMkdirDenied then
      { ok := false, archive := none
        msgs := ["Permission denied - cannot create archive"] }
    else if !(if env.dstParentPresent then env.dstParentWritable else true) then
      { ok := false, archive := none
        msgs := ["Permission denied - cannot write to destination directory"] }
    else
      if env.srcIsDir then
        let entries :=
          (env.walk.filter (fun f => f.dirReadable && f.readable)).map
            (fun f => f.relpath)
        if entries.length = 0 then
          { ok := false, archive := some [], msgs := [emptySourceMsg] }
        else
          { ok := true, archive := some entries, msgs := [] }
      else
        { ok := true, archive := some [baseName src], msgs := [] }

/-! ## extract_zip (src/file.py lines 568-639) -/

/-- One entry of the source archive: its name and whether `zf.testzip()`
flags it as corrupt (CRC failure). -/
structure ZipEntry where
  name : String
  bad : Bool
deriving DecidableEq

/-- Environment of one `extract_zip` call. -/
structure ExtractEnv where
  srcInfo : PathInfo
  srcReadable : Bool
  validZip : Bool
  entries : List ZipEntry
  dstPresent : Bool
  dstWritable : Bool

/-- Result of one `extract_zip` call: returned boolean, whether the
destination directory was created by the call, the entry names extracted into
the destination, the reported entry count, and the messages printed. -/
structure ExtractResult where
  ok : Bool
  dstCreated : Bool
  extracted : List String
  count : Option Nat
  msgs : List String
deriving DecidableEq

/-- Embedding of `extract_zip(src, dst)` (src/file.py lines 568-639).
Source validation and the `.zip` suffix check come first; the destination
directory is created (if absent) before the archive is opened; `testzip`
runs before `extractall`, and a corrupt archive aborts with a message naming
the first bad entry and nothing extracted. -/
def extract_zip (src dst : String) (env : ExtractEnv) : ExtractResult :=
  let v := validate_path src true PathType.file env.srcInfo
  if !v.1 then
    { ok := false, dstCreated := false, extracted := [], count := none
      msgs := [v.2.getD ""] }
  else if !(strEndsWith (strLower src) ".zip") then
    { ok := false, dstCreated := false, extracted := [], count := none
      msgs := ["Source file is not a ZIP archive: " ++ src] }
  else if strIsEmpty dst then
    { ok := false, dstCreated := false, extracted := [], count := none
      msgs := ["Destination path cannot be empty"] }
  else
    if !env.srcReadable then
      { ok := false, dstCreated := false, extracted := [], count := none
        msgs := ["Permission denied - cannot read ZIP file"] }
    else
      let dstCreated := !env.dstPresent
      if !(if dstCreated then true else env.dstWritable) then
        { ok := false, dstCreated := dstCreated, extracted := [], count := none
          msgs := ["Permission denied - cannot write to destination"] }
      else if !env.validZip then
        { ok := false, dstCreated := dstCreated, extracted := [], count := none
          msgs := ["Invalid or corrupted ZIP file: " ++ src] }
      else
        match env.entries.find? (fun e => e.bad) with
        | some e =>
          { ok := false, dstCreated := dstCreated, extracted := [], count := none
            msgs := ["ZIP file is corrupted, first bad file: " ++ e.name] }
        | none =>
          { ok := true, dstCreated := dstCreated
            extracted := env.entries.map (fun e => e.name)
            count := some env.entries.length
            msgs := ["Extracted"] }

/-! ## organize_files (src/file.py lines 641-723) -/

/-- One immediate child of the organized folder, in `iterdir()` order: its
base name, whether it is a directory (`file.is_file()` is its negation for
the directory entries in question), and the two `os.access` permission bits
checked by the source (`os.R_OK | os.W_OK`). -/
structure Entry where
  name : String
  isDir : Bool
  readable : Bool
  writable : Bool
deriving DecidableEq

/-- Environment of one `organize_files` run: the precondition facts about the
folder, its immediate children, which category subfolders already exist, and
which operations the operating system would deny (`mkdir` raising
`PermissionError` for a category, `shutil.move` failing for a file name, the
bundle archive creation failing). -/
structure OrgEnv where
  folderPresent : Bool
  folderIsDir : Bool
  folderAccessRW : Bool
  children : List Entry
  existingDirs : List String
  mkdirDenied : String → Bool
  moveDenied : String → Bool
  archiveDenied : Bool

/-- Mutable state accumulated during one organize run: category directories
created by the run, names whose `shutil.move` returned successfully (in
order), the `processed` result list of (file name, category) appended after
each successful move, permission-skipped names, and per-file error names. -/
structure OrgState where
  created : List String
  moves : List String
  processed : List (String × String)
  skipped : List String
  errors : List String
deriving DecidableEq

/-- The empty accumulated state at the start of a run. -/
def emptyOrgState : OrgState :=
  { created := [], moves := [], processed := [], skipped := [], errors := [] }

/-- Category assigned to an entry: `EXTENSION_FOLDERS.get(file.suffix.lower(),
"Misc")` in the source. -/
def catOf (e : Entry) : String :=
  lookupCategory (strLower (pySuffix e.name))

/-- Embedding of one iteration of the `for file in folder_path.iterdir()` loop
(src/file.py lines 666-697).  Directories are skipped by the `is_file()`
check; files lacking read+write permission are skipped with a warning; the
category directory is created (when missing) by `mkdir(exist_ok=True)`
BEFORE the dry-run test; a dry run then stops, otherwise the move is
attempted and, only on success, the file is appended to `processed`. -/
def orgStep (env : OrgEnv) (dryRun : Bool) (st : OrgState) (e : Entry) : OrgState :=
  if e.isDir then st
  else if !(e.readable && e.writable) then
    { st with skipped := st.skipped ++ [e.name] }
  else
    let category := catOf e
    if env.mkdirDenied category then
      { st with errors := st.errors ++ [category] }
    else
      let st1 :=
        if env.existingDirs.contains category || st.created.contains category then st
        else { st with created := st.created ++ [category] }
      if dryRun then st1
      else if env.moveDenied e.name then
        { st1 with errors := st1.errors ++ [e.name] }
      else
        { st1 with
            moves := st1.moves ++ [e.name]
            processed := st1.processed ++ [(e.name, category)] }

/-- Result of one `organize_files` call: the returned boolean, the final
accumulated state, and the entry names of the bundle archive when one was
written (`none` when bundling was off, the result was empty, or archive
creation failed). -/
structure OrgResult where
  ok : Bool
  st : OrgState
  archive : Option (List String)

/-- Embedding of `organize_files(folder, dry_run, compress, compress_path)`
(src/file.py lines 641-723).  After the precondition checks the children are
processed in order; afterwards, if bundling is requested and the result is
non-empty, the moved files are zipped under their base names (`zf.write(file,
file.name)`); archive failure is reported but the function still returns
success. -/
def organize_files (folder : String) (env : OrgEnv) (dryRun bundle : Bool) :
    OrgResult :=
  if strIsEmpty (pyStrip folder) then
    { ok := false, st := emptyOrgState, archive := none }
  else if !env.folderPresent then
    { ok := false, st := emptyOrgState, archive := none }
  else if !env.folderIsDir then
    { ok := false, st := emptyOrgState, archive := none }
  else if !env.folderAccessRW then
    { ok := false, st := emptyOrgState, archive := none }
  else
    let st := env.children.foldl (orgStep env dryRun) emptyOrgState
    let archive :=
      if bundle && !st.processed.isEmpty && !env.archiveDenied then
        some (st.processed.map Prod.fst)
      else none
    { ok := true, st := st, archive := archive }

/-- Entries skipped with a warning by the permission pre-check: regular files
lacking read or write permission. -/
def permSkipped (e : Entry) : Bool :=
  !e.isDir && !(e.readable && e.writable)

/-- Entries that the run actually moves: regular files with both permission
bits whose category directory can be created and whose move is not denied. -/
def movable (env : OrgEnv) (e : Entry) : Bool :=
  !e.isDir && (e.readable && e.writable)
    && !env.mkdirDenied (catOf e) && !env.moveDenied e.name

lemma orgStep_skipped (env : OrgEnv) (d : Bool) (st : OrgState) (e : Entry) :
    (orgStep env d st e).skipped
      = st.skipped ++ (if permSkipped e then [e.name] else []) := by
  simp only [orgStep, permSkipped]
  repeat' split
  all_goals simp_all

lemma orgStep_processed (env : OrgEnv) (d : Bool) (st : OrgState) (e : Entry) :
    (orgStep env d st e).processed
      = st.processed
          ++ (if !d && movable env e then [(e.name, catOf e)] else []) := by
  simp only [orgStep, movable]
  repeat' split
  all_goals simp_all

lemma orgStep_moves (env : OrgEnv) (d : Bool) (st : OrgState) (e : Entry) :
    (orgStep env d st e).moves
      = st.moves ++ (if !d && movable env e then [e.name] else []) := by
  simp only [orgStep, movable]
  repeat' split
  all_goals simp_all

lemma foldl_orgStep_skipped (env : OrgEnv) (d : Bool) (l : List Entry)
    (st : OrgState) :
    (l.foldl (orgStep env d) st).skipped
      = st.skipped ++ (l.filter permSkipped).map (fun e => e.name) := by
  induction l generalizing st with
  | nil => simp
  | cons e t ih =>
    rw [List.foldl_cons, ih, orgStep_skipped]
    by_cases h : permSkipped e <;> simp [h]

lemma foldl_orgStep_processed (env : OrgEnv) (d : Bool) (l : List Entry)
    (st : OrgState) :
    (l.foldl (orgStep env d) st).processed
      = st.processed
          ++ (l.filter (fun e => !d && movable env e)).map
              (fun e => (e.name, catOf e)) := by
  induction l generalizing st with
  | nil => simp
  | cons e t ih =>
    rw [List.foldl_cons, ih, orgStep_processed]
    by_cases h : (!d && movable env e) = true <;> simp [h]

lemma foldl_orgStep_moves (env : OrgEnv) (d : Bool) (l : List Entry)
    (st : OrgState) :
    (l.foldl (orgStep env d) st).moves
      = st.moves ++ (l.filter (fun e => !d && movable env e)).map
          (fun e => e.name) := by
  induction l generalizing st with
  | nil => simp
  | cons e t ih =>
    rw [List.foldl_cons, ih, orgStep_moves]
    by_cases h : (!d && movable env e) = true <;> simp [h]

/-- Full characterisation of a run that passes the precondition checks:
it returns success, the permission-skipped files are exactly the regular
children lacking read+write permission, the processed result is exactly the
movable children with their categories (empty on a dry run), and the
successful-move list carries the same names. -/
lemma organize_run_spec (folder : String) (env : OrgEnv) (dryRun bundle : Bool)
    (hf : strIsEmpty (pyStrip folder) = false)
    (hp : env.folderPresent = true)
    (hd : env.folderIsDir = true)
    (ha : env.folderAccessRW = true) :
    (organize_files folder env dryRun bundle).ok = true
    ∧ (organize_files folder env dryRun bundle).st.skipped
        = (env.children.filter permSkipped).map (fun e => e.name)
    ∧ (organize_files folder env dryRun bundle).st.processed
        = (env.children.filter (fun e => !dryRun && movable env e)).map
            (fun e => (e.name, catOf e))
    ∧ (organize_files folder env dryRun bundle).st.moves
        = (env.children.filter (fun e => !dryRun && movable env e)).map
            (fun e => e.name) := by
  unfold organize_files
  simp [hf, hp, hd, ha, foldl_orgStep_skipped, foldl_orgStep_processed,
    foldl_orgStep_moves, emptyOrgState]

/-! ## Claim C1 -/

/-- C1 (amended): a dry-run organize moves no file, appends nothing to the
result list, and creates no bundle archive — but, as the counterexample shows,
it can still create category subdirectories, because the source performs
`target_dir.mkdir(exist_ok=True)` before testing `dry_run`. -/
theorem organize_dry_run_moves_nothing (folder : String) (env : OrgEnv)
    (bundle : Bool) :
    (organize_files folder env true bundle).st.processed = []
    ∧ (organize_files folder env true bundle).st.moves = []
    ∧ (organize_files folder env true bundle).archive = none := by
  unfold organize_files
  repeat' split
  all_goals
    simp_all [foldl_orgStep_processed, foldl_orgStep_moves, emptyOrgState]

/-- A folder with a single readable+writable `a.jpg` child whose `Images`
category directory does not exist yet; nothing is denied. -/
def dryRunCexEnv : OrgEnv :=
  { folderPresent := true, folderIsDir := true, folderAccessRW := true
    children := [{ name := "a.jpg", isDir := false, readable := true, writable := true }]
    existingDirs := []
    mkdirDenied := fun _ => false
    moveDenied := fun _ => false
    archiveDenied := false }

/-- C1 counterexample: running organize with dryRun enabled on this folder
creates the `Images` category subdirectory, so the directory tree is NOT
identical before and after the run, refuting the claim as stated. -/
theorem organize_dry_run_creates_dir_cex :
    (organize_files "drop" dryRunCexEnv true false).st.created = ["Images"]
    ∧ (organize_files "drop" dryRunCexEnv true false).st.created ≠ [] := by
  decide

/-! ## Claim C4 -/

/-- C4: in every organize run, the `processed` result list carries exactly the
files whose move returned successfully (same names, same order), and whenever
a bundle archive is produced its entries are exactly the successfully-moved
files of the run. -/
theorem organize_result_only_after_move (folder : String) (env : OrgEnv)
    (dryRun bundle : Bool) :
    (organize_files folder env dryRun bundle).st.processed.map Prod.fst
        = (organize_files folder env dryRun bundle).st.moves
    ∧ ((organize_files folder env dryRun bundle).archive = none
        ∨ (organize_files folder env dryRun bundle).archive
            = some ((organize_files folder env dryRun bundle).st.processed.map
                Prod.fst)) := by
  simp only [organize_files]
  repeat' split
  all_goals
    simp_all [foldl_orgStep_processed, foldl_orgStep_moves, emptyOrgState,
      List.map_map, Function.comp]

/-! ## Claim C5 -/

/-- C5: when the folder passes organize's precondition checks, the run as a
whole returns success; each regular child lacking read+write permission is
skipped (the skipped list is exactly those children) and every movable child
is moved (the processed list is exactly the movable children with their
categories), so per-file failures never abort the run. -/
theorem organize_partial_failures_skipped (folder : String) (env : OrgEnv)
    (bundle : Bool)
    (hf : strIsEmpty (pyStrip folder) = false)
    (hp : env.folderPresent = true)
    (hd : env.folderIsDir = true)
    (ha : env.folderAccessRW = true) :
    (organize_files folder env false bundle).ok = true
    ∧ (organize_files folder env false bundle).st.skipped
        = (env.children.filter permSkipped).map (fun e => e.name)
    ∧ (organize_files folder env false bundle).st.processed
        = (env.children.filter (movable env)).map (fun e => (e.name, catOf e)) := by
  have h := organize_run_spec folder env false bundle hf hp hd ha
  refine ⟨h.1, h.2.1, ?_⟩
  rw [h.2.2.1]
  simp

/-- A folder with two normal files and one locked (permission-lacking) file. -/
def partialEnv : OrgEnv :=
  { folderPresent := true, folderIsDir := true, folderAccessRW := true
    children :=
      [{ name := "a.jpg", isDir := false, readable := true, writable := true },
       { name := "locked.bin", isDir := false, readable := false, writable := false },
       { name := "b.txt", isDir := false, readable := true, writable := true }]
    existingDirs := []
    mkdirDenied := fun _ => false
    moveDenied := fun _ => false
    archiveDenied := false }

/-- C5 witness: the hypotheses hold for the locked-file folder, so the run
skips exactly the locked file, moves the two normal files, and returns
success. -/
theorem organize_partial_failures_skipped_witness :
    (strIsEmpty (pyStrip "drop") = false ∧ partialEnv.folderPresent = true
      ∧ partialEnv.folderIsDir = true ∧ partialEnv.folderAccessRW = true)
    ∧ ((organize_files "drop" partialEnv false false).ok = true
      ∧ (organize_files "drop" partialEnv false false).st.skipped
          = (partialEnv.children.filter permSkipped).map (fun e => e.name)
      ∧ (organize_files "drop" partialEnv false false).st.processed
          = (partialEnv.children.filter (movable partialEnv)).map
              (fun e => (e.name, catOf e))) :=
  ⟨by decide,
   organize_partial_failures_skipped "drop" partialEnv false
     (by decide) (by decide) (by decide) (by decide)⟩

/-! ## Claim C6 -/

/-- C6: every file the run places carries the category obtained by looking up
its lower-cased extension (leading dot included) in the classification table:
if the lower-cased extension is a key, the file lands in that category
subfolder; otherwise (including files with no extension) it lands in `Misc`;
and two files whose extensions agree up to case always land in the same
category. -/
theorem organize_classification (folder : String) (env : OrgEnv) (bundle : Bool)
    (hf : strIsEmpty (pyStrip folder) = false)
    (hp : env.folderPresent = true)
    (hd : env.folderIsDir = true)
    (ha : env.folderAccessRW = true)
    (n c : String)
    (hmem : (n, c) ∈ (organize_files folder env false bundle).st.processed) :
    c = lookupCategory (strLower (pySuffix n))
    ∧ (∀ v, EXTENSION_FOLDERS.lookup (strLower (pySuffix n)) = some v → c = v)
    ∧ (EXTENSION_FOLDERS.lookup (strLower (pySuffix n)) = none → c = "Misc")
    ∧ ∀ n2 c2,
        (n2, c2) ∈ (organize_files folder env false bundle).st.processed →
        strLower (pySuffix n) = strLower (pySuffix n2) → c = c2 := by
  have h := (organize_run_spec folder env false bundle hf hp hd ha).2.2.1
  rw [h] at hmem
  obtain ⟨e, he, heq⟩ := List.mem_map.mp hmem
  have hn : e.name = n := congrArg Prod.fst heq
  have hc : catOf e = c := congrArg Prod.snd heq
  have hbase : c = lookupCategory (strLower (pySuffix n)) := by
    rw [← hn, ← hc]; rfl
  refine ⟨hbase, ?_, ?_, ?_⟩
  · intro v hv
    rw [hbase, lookupCategory, hv]
    rfl
  · intro hv
    rw [hbase, lookupCategory, hv]
    rfl
  · intro n2 c2 hmem2 hsuf
    rw [h] at hmem2
    obtain ⟨e2, he2, heq2⟩ := List.mem_map.mp hmem2
    have hn2 : e2.name = n2 := congrArg Prod.fst heq2
    have hc2 : catOf e2 = c2 := congrArg Prod.snd heq2
    rw [hbase, ← hc2]
    unfold catOf
    exact congrArg lookupCategory (by rw [hn2, ← hsuf])

/-- A folder with one readable+writable `photo.JPG` child (upper-case
extension); nothing is denied. -/
def classifyEnv : OrgEnv :=
  { folderPresent := true, folderIsDir := true, folderAccessRW := true
    children := [{ name := "photo.JPG", isDir := false, readable := true, writable := true }]
    existingDirs := []
    mkdirDenied := fun _ => false
    moveDenied := fun _ => false
    archiveDenied := false }

/-- C6 witness: `photo.JPG` is processed with category `Images`, and that
category equals the table lookup of the lower-cased extension `.jpg`. -/
theorem organize_classification_witness :
    (("photo.JPG", "Images")
        ∈ (organize_files "drop" classifyEnv false false).st.processed)
    ∧ "Images" = lookupCategory (strLower (pySuffix "photo.JPG")) :=
  ⟨by decide,
   (organize_classification "drop" classifyEnv false (by decide) (by decide)
     (by decide) (by decide) "photo.JPG" "Images" (by decide)).1⟩

/-! ## Claim C9 -/

/-- C9 (amended): path validation fails on paths that are empty or
whitespace-only, and on paths that still contain one of the illegal
characters `<`, `>`, `|`, NUL, CR, LF after leading and trailing whitespace
has been stripped; a path whose only illegal characters are leading/trailing
whitespace (e.g. a trailing LF) is stripped and accepted, which is what the
counterexample shows.  The check reads the filesystem only through `info`
and returns no state, so it performs no mutation. -/
theorem validate_path_rejects (path : String) (shouldExist : Bool)
    (ptype : PathType) (info : PathInfo) :
    (strIsEmpty (pyStrip path) = true →
      (validate_path path shouldExist ptype info).1 = false)
    ∧ (containsIllegal (pyStrip path) = true →
      (validate_path path shouldExist ptype info).1 = false) := by
  constructor <;> intro h <;> simp only [validate_path] <;> repeat' split <;>
    simp_all

/-- C9 counterexample: the path made of `a` followed by a line feed contains
the illegal character LF, yet validation strips the LF and accepts the path
(creation case with an existing parent), refuting the claim as stated. -/
theorem validate_path_newline_cex :
    "a\n".data.contains '\n' = true
    ∧ (validate_path "a\n" false PathType.file
        { present := false, isDir := false, parentPresent := true }).1 = true := by
  decide

/-- C9 witness: a whitespace-only path and a path with an interior `|` are
both rejected. -/
theorem validate_path_rejects_witness :
    (strIsEmpty (pyStrip "   ") = true
      ∧ (validate_path "   " true PathType.auto
          { present := true, isDir := false, parentPresent := true }).1 = false)
    ∧ (containsIllegal (pyStrip "a|b") = true
      ∧ (validate_path "a|b" true PathType.auto
          { present := true, isDir := false, parentPresent := true }).1 = false) :=
  ⟨⟨by decide,
    (validate_path_rejects "   " true PathType.auto
      { present := true, isDir := false, parentPresent := true }).1 (by decide)⟩,
   ⟨by decide,
    (validate_path_rejects "a|b" true PathType.auto
      { present := true, isDir := false, parentPresent := true }).2 (by decide)⟩⟩

/-! ## Claim C3 -/

/-- C3 (amended): validation errors are enforced before any mutation only for
append operations: a failing validation makes the append return failure with
the validator's human-readable message, leaving the file content untouched
and creating no directory.  For non-append writes the source ignores the
validation result (`if not valid and append`), so — as the counterexample
shows — a write to a path failing validation proceeds and mutates the
filesystem. -/
theorem write_append_validation_blocks (path text : String) (env : WriteEnv)
    (h : (validate_path path true PathType.file env.info).1 = false) :
    ∃ m, (validate_path path true PathType.file env.info).2 = some m
      ∧ write_file path text true env
          = { ok := false, content := env.content, parentCreated := false
              msgs := [m] } := by
  obtain ⟨m, hm⟩ := validate_path_false_msg path true PathType.file env.info h
  exact ⟨m, hm, by simp [write_file, h, hm]⟩

/-- Environment for the C3 counterexample: the target path is absent, its
parent exists and is writable. -/
def writeCexEnv : WriteEnv :=
  { info := { present := false, isDir := false, parentPresent := true }
    parentWritable := true
    content := none }

/-- C3 counterexample: a non-append write to the path `a|b` — which fails
validation because of the illegal `|` — is not rejected: the call returns
success and the file is created (the filesystem is mutated after a failed
validation). -/
theorem write_ignores_validation_cex :
    (validate_path "a|b" false PathType.file writeCexEnv.info).1 = false
    ∧ (write_file "a|b" "hi" false writeCexEnv).ok = true
    ∧ (write_file "a|b" "hi" false writeCexEnv).content = some "hi\n" := by
  decide

/-- C3 witness: an append to the invalid path `a|b` is blocked with the
validator's reason and without mutation. -/
theorem write_append_validation_blocks_witness :
    (validate_path "a|b" true PathType.file writeCexEnv.info).1 = false
    ∧ ∃ m, (validate_path "a|b" true PathType.file writeCexEnv.info).2 = some m
        ∧ write_file "a|b" "x" true writeCexEnv
            = { ok := false, content := writeCexEnv.content, parentCreated := false
                msgs := [m] } :=
  ⟨by decide, write_append_validation_blocks "a|b" "x" writeCexEnv (by decide)⟩

/-! ## Claim C10 -/

/-- C10: a successful write_file stores the given text followed by exactly one
appended newline: after a fresh (non-append) write the content is the text
plus one LF — not the text itself — and after an append it is the previous
content followed by the text plus one LF. -/
theorem write_file_appends_newline (path text : String) (env : WriteEnv) :
    ((write_file path text false env).ok = true →
      (write_file path text false env).content = some (text ++ "\n"))
    ∧ ((write_file path text true env).ok = true →
      (write_file path text true env).content
        = some ((env.content.getD "") ++ text ++ "\n")) := by
  constructor <;> intro h <;> revert h <;> simp only [write_file] <;>
    repeat' split <;> simp_all

/-- Environment for the C10 witness: an existing writable file holding one
line of content. -/
def writeOkEnv : WriteEnv :=
  { info := { present := true, isDir := false, parentPresent := true }
    parentWritable := true
    content := some "old\n" }

/-- C10 witness: at a concrete file both the fresh write and the append
succeed and append exactly one newline to the given text. -/
theorem write_file_appends_newline_witness :
    ((write_file "f.txt" "hi" false writeOkEnv).ok = true
      ∧ (write_file "f.txt" "hi" false writeOkEnv).content = some ("hi" ++ "\n"))
    ∧ ((write_file "f.txt" "hi" true writeOkEnv).ok = true
      ∧ (write_file "f.txt" "hi" true writeOkEnv).content
          = some ((writeOkEnv.content.getD "") ++ "hi" ++ "\n")) :=
  ⟨⟨by decide, (write_file_appends_newline "f.txt" "hi" writeOkEnv).1 (by decide)⟩,
   ⟨by decide, (write_file_appends_newline "f.txt" "hi" writeOkEnv).2 (by decide)⟩⟩

/-! ## Claim C7 -/

/-- C7: for every directory walked by search, a file is reported as a match
if and only if the name pattern is absent or case-insensitively a substring
of the filename, and the extension filter is absent or the filename
case-insensitively ends with it, and the keyword is absent or the readable
file's decoded content case-insensitively contains it (an unreadable or
undecodable file is a non-match, never an error).  The three hypotheses
record the interface normalisation that maps an empty filter string to an
absent filter (the menu passes `input(...).strip() or None`). -/
theorem search_match_iff (nm ext kw : Option String) (dirs : List SDir)
    (hnm : nm ≠ some "") (hext : ext ≠ some "") (hkw : kw ≠ some "") :
    (∀ f, matchFile nm ext kw f = specMatch nm ext kw f)
    ∧ search_files nm ext kw dirs = searchSpec nm ext kw dirs := by
  have hpt : ∀ f, matchFile nm ext kw f = specMatch nm ext kw f := by
    intro f
    cases nm <;> cases ext <;> cases kw <;>
      simp_all [matchFile, specMatch, truthy, strIsEmpty_false_of_ne,
        Bool.and_assoc]
  refine ⟨hpt, ?_⟩
  have hfun : matchFile nm ext kw = specMatch nm ext kw := funext hpt
  simp [search_files, searchSpec, hfun]

/-- Directory tree for the C7 witness: one readable directory with a
case-varying match, an unreadable file and a name-filtered file, plus one
unreadable directory. -/
def demoDirs : List SDir :=
  [{ readable := true
     files :=
       [{ name := "Report.TXT", readable := true, content := "hello Key world" },
        { name := "notes.txt", readable := false, content := "key" },
        { name := "img.png", readable := true, content := "key" }] },
   { readable := false
     files := [{ name := "secret.txt", readable := true, content := "key" }] }]

/-- C7 witness: with the name filter `txt` and the keyword `key`, the code's
filter agrees with the specification predicate pointwise and on the whole
walk of the demo tree. -/
theorem search_match_iff_witness :
    (matchFile (some "txt") none (some "key")
        { name := "Report.TXT", readable := true, content := "hello Key world" }
      = specMatch (some "txt") none (some "key")
        { name := "Report.TXT", readable := true, content := "hello Key world" })
    ∧ search_files (some "txt") none (some "key") demoDirs
        = searchSpec (some "txt") none (some "key") demoDirs :=
  ⟨(search_match_iff (some "txt") none (some "key") demoDirs (by decide)
      (by decide) (by decide)).1
     { name := "Report.TXT", readable := true, content := "hello Key world" },
   (search_match_iff (some "txt") none (some "key") demoDirs (by decide)
      (by decide) (by decide)).2⟩

/-! ## Claim C2 -/

/-- C2 (amended): compress on a directory source that yields zero archivable
files does fail and reports the empty-source message, but an (empty) archive
file is left at the destination path, because `zipfile.ZipFile(dst, "w")`
creates the file before the entries are counted — so the "no archive file
exists afterwards" half of the claim fails, as the counterexample shows. -/
theorem compress_empty_dir (src dst : String) (env : CompressEnv)
    (hv : (validate_path src true PathType.auto env.srcInfo).1 = true)
    (hdst : strIsEmpty dst = false)
    (hr : env.srcReadable = true)
    (hpp : env.dstParentPresent = true)
    (hpw : env.dstParentWritable = true)
    (hdir : env.srcIsDir = true)
    (hempty : env.walk.filter (fun f => f.dirReadable && f.readable) = []) :
    compress_files src dst env
      = { ok := false, archive := some [], msgs := [emptySourceMsg] } := by
  simp [compress_files, hv, hdst, hr, hpp, hpw, hdir, hempty]

/-- Environment for the C2 counterexample and witness: a readable, empty
source directory and a fresh destination with a writable parent. -/
def compressCexEnv : CompressEnv :=
  { srcInfo := { present := true, isDir := true, parentPresent := true }
    srcReadable := true
    srcIsDir := true
    walk := []
    dstParentPresent := true
    dstParentMkdirDenied := false
    dstParentWritable := true
    dstPresent := false }

/-- C2 counterexample: compressing an empty directory fails as claimed, but
an archive file (with zero entries) exists at the destination afterwards,
refuting the "no archive file exists" half of the claim. -/
theorem compress_empty_dir_leaves_archive_cex :
    (compress_files "d" "out.zip" compressCexEnv).ok = false
    ∧ (compress_files "d" "out.zip" compressCexEnv).archive = some [] := by
  decide

/-- C2 witness: the hypotheses of the amended theorem hold at the concrete
empty directory, and the run fails with the empty-source message while the
empty archive stays on disk. -/
theorem compress_empty_dir_witness :
    ((validate_path "d" true PathType.auto compressCexEnv.srcInfo).1 = true
      ∧ strIsEmpty "out.zip" = false
      ∧ compressCexEnv.walk.filter (fun f => f.dirReadable && f.readable) = [])
    ∧ compress_files "d" "out.zip" compressCexEnv
        = { ok := false, archive := some [], msgs := [emptySourceMsg] } :=
  ⟨by decide,
   compress_empty_dir "d" "out.zip" compressCexEnv (by decide) (by decide)
     (by decide) (by decide) (by decide) (by decide) (by decide)⟩

/-! ## Claim C8 -/

/-- C8: extract first rejects a source lacking the `.zip` suffix (nothing
extracted); with the suffix in place and the remaining checks passing, a
corrupt archive makes it fail with a message naming the first bad entry and
nothing extracted; otherwise the destination directory is created exactly
when absent, all entries are extracted, and the entry count is reported. -/
theorem extract_zip_spec (src dst : String) (env : ExtractEnv) :
    ((validate_path src true PathType.file env.srcInfo).1 = true →
      strEndsWith (strLower src) ".zip" = false →
      (extract_zip src dst env).ok = false
        ∧ (extract_zip src dst env).extracted = [])
    ∧ (∀ b, (validate_path src true PathType.file env.srcInfo).1 = true →
        strEndsWith (strLower src) ".zip" = true →
        strIsEmpty dst = false →
        env.srcReadable = true →
        (env.dstPresent = false ∨ env.dstWritable = true) →
        env.validZip = true →
        env.entries.find? (fun z => z.bad) = some b →
        (extract_zip src dst env).ok = false
          ∧ (extract_zip src dst env).extracted = []
          ∧ (extract_zip src dst env).msgs
              = ["ZIP file is corrupted, first bad file: " ++ b.name])
    ∧ ((validate_path src true PathType.file env.srcInfo).1 = true →
        strEndsWith (strLower src) ".zip" = true →
        strIsEmpty dst = false →
        env.srcReadable = true →
        (env.dstPresent = false ∨ env.dstWritable = true) →
        env.validZip = true →
        env.entries.find? (fun z => z.bad) = none →
        (extract_zip src dst env).ok = true
          ∧ (extract_zip src dst env).dstCreated = !env.dstPresent
          ∧ (extract_zip src dst env).extracted
              = env.entries.map (fun z => z.name)
          ∧ (extract_zip src dst env).count = some env.entries.length) := by
  refine ⟨?_, ?_, ?_⟩
  · intro hv hz
    simp [extract_zip, hv, hz]
  · intro b hv hz hd hr hw hvz hfind
    simp only [extract_zip, hfind]
    rcases hw with hw | hw <;> cases hp : env.dstPresent <;> simp_all
  · intro hv hz hd hr hw hvz hfind
    simp only [extract_zip, hfind]
    rcases hw with hw | hw <;> cases hp : env.dstPresent <;> simp_all

/-- Environment for the C8 witness success and suffix-reject branches: a
present regular source file, a valid archive with two good entries, an
absent destination. -/
def extractGoodEnv : ExtractEnv :=
  { srcInfo := { present := true, isDir := false, parentPresent := true }
    srcReadable := true
    validZip := true
    entries := [{ name := "a.txt", bad := false }, { name := "b.txt", bad := false }]
    dstPresent := false
    dstWritable := false }

/-- Environment for the C8 witness corrupt branch: the second entry fails
the integrity test. -/
def extractBadEnv : ExtractEnv :=
  { srcInfo := { present := true, isDir := false, parentPresent := true }
    srcReadable := true
    validZip := true
    entries := [{ name := "ok.txt", bad := false }, { name := "evil.bin", bad := true }]
    dstPresent := true
    dstWritable := true }

/-- C8 witness: the three branches at concrete inputs — a `.tar` source is
rejected with nothing extracted; a corrupt archive fails naming `evil.bin`
with nothing extracted; a healthy archive is fully extracted with the
destination created and the count reported. -/
theorem extract_zip_spec_witness :
    ((extract_zip "arch.tar" "out" extractGoodEnv).ok = false
      ∧ (extract_zip "arch.tar" "out" extractGoodEnv).extracted = [])
    ∧ ((extract_zip "arch.zip" "out" extractBadEnv).ok = false
      ∧ (extract_zip "arch.zip" "out" extractBadEnv).extracted = []
      ∧ (extract_zip "arch.zip" "out" extractBadEnv).msgs
          = ["ZIP file is corrupted, first bad file: "
              ++ ZipEntry.name { name := "evil.bin", bad := true }])
    ∧ ((extract_zip "arch.zip" "out" extractGoodEnv).ok = true
      ∧ (extract_zip "arch.zip" "out" extractGoodEnv).dstCreated
          = !extractGoodEnv.dstPresent
      ∧ (extract_zip "arch.zip" "out" extractGoodEnv).extracted
          = extractGoodEnv.entries.map (fun z => z.name)
      ∧ (extract_zip "arch.zip" "out" extractGoodEnv).count
          = some extractGoodEnv.entries.length) :=
  ⟨(extract_zip_spec "arch.tar" "out" extractGoodEnv).1 (by decide) (by decide),
   (extract_zip_spec "arch.zip" "out" extractBadEnv).2.1
     { name := "evil.bin", bad := true } (by decide) (by decide) (by decide)
     (by decide) (Or.inr (by decide)) (by decide) (by decide),
   (extract_zip_spec "arch.zip" "out" extractGoodEnv).2.2 (by decide) (by decide)
     (by decide) (by decide) (Or.inl (by decide)) (by decide) (by decide)⟩

end FileCli
